import Mathlib

/-!
# Verification of the mom-chef-backend record store and route handlers

Shallow embedding of `src/server.js`: a small Express backend that persists
four collections (menu, orders, reservations, customers) as single JSON
documents and mutates them with whole-document read-modify-write cycles.

Modelling decisions:

* JSON values are the inductive `Json` (numbers as `Int`, which covers every
  numeric value the server itself generates, `Date.now()` in particular).
* A collection's backing file is a `FileState`: `absent` (no file, `ENOENT`),
  `emptyStr` (the file exists and holds the empty string), `stored v` (the
  file holds the serialization of the JSON value `v`), or `corrupt` (the file
  holds text that `JSON.parse` rejects).  Storing the parsed value rather
  than the character string abstracts `JSON.stringify`/`JSON.parse`, which
  round-trip exactly on the values of `Json`.
* Each route handler is a pure function from its request data, the clock
  readings it takes (`Date.now()` as an `Int`, `new Date().toISOString()` as
  a `String`) and the relevant `FileState` to a `Response` paired with the
  resulting `FileState`.
* JavaScript member access, strict equality (`===`) and truthiness are
  embedded by `jsMember`, `jsStrictEq`, `jsonStrictEq` and `truthy`; member
  access on `null` throws, which `jsMember` reflects with `Except`.
-/

set_option autoImplicit false

namespace MomChef

/-- JSON values.  Numbers are modelled as `Int`. -/
inductive Json where
  | null : Json
  | bool (b : Bool) : Json
  | num (n : Int) : Json
  | str (s : String) : Json
  | arr (l : List Json) : Json
  | obj (kvs : List (String × Json)) : Json

/-- The state of one collection's backing file. -/
inductive FileState where
  | absent : FileState
  | emptyStr : FileState
  | stored (v : Json) : FileState
  | corrupt : FileState

/-- HTTP response bodies: a JSON document (`res.json`) or plain text (`res.send`). -/
inductive RespBody where
  | json (v : Json) : RespBody
  | text (s : String) : RespBody

/-- An HTTP response: status code and body. -/
structure Response where
  status : Nat
  body : RespBody

/-- A 500 response with a `{ message }` JSON body, as produced by every catch block. -/
def resp500 (m : String) : Response :=
  ⟨500, .json (.obj [("message", .str m)])⟩

/-- `writeData`: `fs.writeFile(filePath, JSON.stringify(data, null, 2))` — the
file now holds exactly the serialization of `data`, overwriting anything prior. -/
def writeData (data : Json) : FileState :=
  .stored data

/-- `readData`: checks access, reads the file, returns `[]` on empty content,
parses otherwise; on `ENOENT` initializes the file with `[]` via `writeData`
and returns `[]`; a parse failure propagates (`Except.error`).  Returns the
parsed value together with the file state after the call. -/
def readData : FileState → Except Unit (Json × FileState)
  | .absent => .ok (.arr [], writeData (.arr []))
  | .emptyStr => .ok (.arr [], .emptyStr)
  | .stored v => .ok (v, .stored v)
  | .corrupt => .error ()

/-! ## JavaScript value semantics used by the handlers -/

/-- Strict equality `===` between two JSON values.  Scalars compare by value;
`null === null` holds; values of different primitive types are unequal; two
distinct arrays or objects compare by reference, and the handlers only ever
compare values originating from distinct allocations, so compound values are
never `===` here. -/
def jsonStrictEq : Json → Json → Bool
  | .null, .null => true
  | .bool a, .bool b => a == b
  | .num a, .num b => a == b
  | .str a, .str b => a == b
  | _, _ => false

/-- Strict equality `===` where either side may be `undefined` (`none`):
`undefined === undefined` holds, `undefined` equals no proper value. -/
def jsStrictEq : Option Json → Option Json → Bool
  | none, none => true
  | some a, some b => jsonStrictEq a b
  | _, _ => false

/-- JavaScript truthiness of a JSON value. -/
def truthy : Json → Bool
  | .null => false
  | .bool b => b
  | .num n => n != 0
  | .str s => s ≠ ""
  | .arr _ => true
  | .obj _ => true

/-- Truthiness of a possibly-`undefined` value (`undefined` is falsy). -/
def truthyOpt : Option Json → Bool
  | none => false
  | some v => truthy v

/-- First value stored under key `k` in an object's entry list. -/
def getKey : List (String × Json) → String → Option Json
  | [], _ => none
  | (k', v) :: rest, k => if k' = k then some v else getKey rest k

/-- Property assignment `o[k] = v` on an object's entry list: replaces the
value in place when the key exists, appends the entry otherwise. -/
def setKey : List (String × Json) → String → Json → List (String × Json)
  | [], k, v => [(k, v)]
  | (k', v') :: rest, k, v =>
      if k' = k then (k', v) :: rest else (k', v') :: setKey rest k v

/-- Object spread `{ ...base-literal-entries, ...entries }`: starting from the
literal's own entries, each spread entry is assigned in order, so a spread key
that already exists overwrites the earlier value in place. -/
def objSpread (base entries : List (String × Json)) : List (String × Json) :=
  entries.foldl (fun acc kv => setKey acc kv.1 kv.2) base

/-- Member access `v.k` on a JSON value: throws (`TypeError`) on `null`,
looks keys up on objects, exposes `length` on arrays and strings, and yields
`undefined` on the remaining primitives.  (Numeric-index access on arrays and
strings is not modelled; no handler uses a numeric member name.) -/
def jsMember : Json → String → Except Unit (Option Json)
  | .null, _ => .error ()
  | .obj kvs, k => .ok (getKey kvs k)
  | .arr l, k => .ok (if k = "length" then some (.num l.length) else none)
  | .str s, k => .ok (if k = "length" then some (.num s.length) else none)
  | .bool _, _ => .ok none
  | .num _, _ => .ok none

/-! ## Route handlers -/

/-- The record built by the order and reservation routes:
`{ id: Date.now(), date: new Date().toISOString(), ...req.body }`.
The literal's own `id`/`date` entries come first; spreading the request body
afterwards assigns each body entry in order, overwriting `id`/`date` in place
when the body supplies them. -/
def submitRecord (body : List (String × Json)) (now : Int) (nowISO : String) : Json :=
  .obj (objSpread [("id", .num now), ("date", .str nowISO)] body)

/-- Common shape of `POST /api/orders` and `POST /api/reservations`: build the
new record, load the collection, append, persist, respond 201 with
`{ message, <recKey>: newRecord }`; any thrown error (corrupt storage, or
`push` on a non-array document) is caught and answered with a 500. -/
def submitHandler (okMsg errMsg recKey : String) (body : List (String × Json))
    (now : Int) (nowISO : String) (st : FileState) : Response × FileState :=
  let newRec := submitRecord body now nowISO
  match readData st with
  | .error _ => (resp500 errMsg, st)
  | .ok (v, st') =>
    match v with
    | .arr l =>
        (⟨201, .json (.obj [("message", .str okMsg), (recKey, newRec)])⟩,
         writeData (.arr (l ++ [newRec])))
    | _ => (resp500 errMsg, st')

/-- `POST /api/orders`. -/
def ordersHandler (body : List (String × Json)) (now : Int) (nowISO : String)
    (st : FileState) : Response × FileState :=
  submitHandler "Order received!" "Failed to save order" "order" body now nowISO st

/-- `POST /api/reservations`. -/
def reservationsHandler (body : List (String × Json)) (now : Int) (nowISO : String)
    (st : FileState) : Response × FileState :=
  submitHandler "Reservation received!" "Failed to save reservation" "reservation"
    body now nowISO st

/-- The fields destructured from the signup request body; `none` is a missing
field (JavaScript `undefined`). -/
structure SignupBody where
  name : Option Json
  email : Option Json
  phone : Option Json
  street : Option Json
  city : Option Json
  state : Option Json
  pincode : Option Json
  dob : Option Json
  password : Option Json

/-- One entry of an object literal whose value may be `undefined`: keys with
`undefined` values are dropped by `JSON.stringify`, both when the record is
persisted and when it is sent in the response, so they are elided here. -/
def optEntry (k : String) : Option Json → List (String × Json)
  | none => []
  | some v => [(k, v)]

/-- The `newCustomer` object literal of the signup route:
`{ id: Date.now(), name, email, phone, street, city, state, pincode, dob,
signupDate: new Date().toISOString() }` — note `password` is not included. -/
def mkCustomer (b : SignupBody) (now : Int) (nowISO : String) : Json :=
  .obj ([("id", .num now)]
    ++ optEntry "name" b.name ++ optEntry "email" b.email
    ++ optEntry "phone" b.phone ++ optEntry "street" b.street
    ++ optEntry "city" b.city ++ optEntry "state" b.state
    ++ optEntry "pincode" b.pincode ++ optEntry "dob" b.dob
    ++ [("signupDate", .str nowISO)])

/-- `customers.find(customer => customer.email === email)`: returns the first
element whose `email` member is `===` to the supplied email, `none` if there
is no such element; member access on a `null` element throws. -/
def findCustomer : List Json → Option Json → Except Unit (Option Json)
  | [], _ => .ok none
  | c :: rest, email =>
      match jsMember c "email" with
      | .error e => .error e
      | .ok ce => if jsStrictEq ce email then .ok (some c) else findCustomer rest email

/-- `POST /api/signup`: load customers, reject with 400 when a record with the
same email exists (`if (existingCustomer)` — a truthiness test on the found
element), otherwise build `newCustomer`, append, persist, respond 201 with the
new record; thrown errors become a 500. -/
def signupHandler (b : SignupBody) (now : Int) (nowISO : String)
    (st : FileState) : Response × FileState :=
  match readData st with
  | .error _ => (resp500 "Failed to register customer.", st)
  | .ok (v, st') =>
    match v with
    | .arr customers =>
      match findCustomer customers b.email with
      | .error _ => (resp500 "Failed to register customer.", st')
      | .ok found =>
        if truthyOpt found then
          (⟨400, .json (.obj [("message", .str "A customer with this email already exists.")])⟩, st')
        else
          let newCustomer := mkCustomer b now nowISO
          (⟨201, .json (.obj [("message", .str "Customer registered successfully!"),
              ("customer", newCustomer)])⟩,
           writeData (.arr (customers ++ [newCustomer])))
    | _ => (resp500 "Failed to register customer.", st')

/-- `POST /api/update-menu`: destructures `{ password, menu }`, answers 401
when `password !== "themomchef@123"` without touching storage; otherwise
overwrites the menu document with `menu` verbatim.  A missing `menu`
(`undefined`) makes `fs.writeFile` throw, answered with a 500. -/
def updateMenuHandler (password menu : Option Json) (st : FileState) :
    Response × FileState :=
  if !jsStrictEq password (some (.str "themomchef@123")) then
    (⟨401, .json (.obj [("message", .str "Unauthorized")])⟩, st)
  else
    match menu with
    | some v => (⟨200, .json (.obj [("message", .str "Menu updated successfully!")])⟩, writeData v)
    | none => (resp500 "Failed to update menu", st)

/-- `GET /api/menu`: load the menu document and return it verbatim. -/
def menuGetHandler (st : FileState) : Response × FileState :=
  match readData st with
  | .error _ => (resp500 "Error loading menu", st)
  | .ok (v, st') => (⟨200, .json v⟩, st')

/-- Common shape of the three export routes: load the collection; when its
`length` is `=== 0` answer 200 with the collection-appropriate plain sentence;
otherwise answer 200 with the CSV text produced by the formatter (the external
`json2csv` collaborator, abstracted as the function argument `fmt`). -/
def exportHandler (sentence errMsg : String) (fmt : Json → String)
    (st : FileState) : Response × FileState :=
  match readData st with
  | .error _ => (resp500 errMsg, st)
  | .ok (v, st') =>
    match jsMember v "length" with
    | .error _ => (resp500 errMsg, st')
    | .ok len =>
      if jsStrictEq len (some (.num 0)) then (⟨200, .text sentence⟩, st')
      else (⟨200, .text (fmt v)⟩, st')

/-- `GET /api/export-orders`. -/
def exportOrdersHandler (fmt : Json → String) (st : FileState) : Response × FileState :=
  exportHandler "No orders to export." "Failed to export orders." fmt st

/-- `GET /api/export-reservations`. -/
def exportReservationsHandler (fmt : Json → String) (st : FileState) : Response × FileState :=
  exportHandler "No reservations to export." "Failed to export reservations." fmt st

/-- `GET /api/export-customers`. -/
def exportCustomersHandler (fmt : Json → String) (st : FileState) : Response × FileState :=
  exportHandler "No customers to export." "Failed to export customers." fmt st

/-- Whether a JSON value is an object. -/
def Json.isObj : Json → Bool
  | .obj _ => true
  | _ => false

/-- The `email` member of a record as the handlers observe it (for objects,
the stored value or `undefined`). -/
def emailField (c : Json) : Option Json :=
  match jsMember c "email" with
  | .ok v => v
  | .error _ => none

/-! ## Lemmas about object-entry lists -/

theorem getKey_nil (k : String) : getKey [] k = none := rfl

theorem getKey_cons (k' k : String) (v : Json) (l : List (String × Json)) :
    getKey ((k', v) :: l) k = if k' = k then some v else getKey l k := rfl

theorem getKey_setKey_self (l : List (String × Json)) (k : String) (v : Json) :
    getKey (setKey l k v) k = some v := by
  induction l with
  | nil => simp [setKey, getKey]
  | cons hd tl ih =>
      obtain ⟨k', v'⟩ := hd
      by_cases h : k' = k
      · simp [setKey, getKey, h]
      · simp [setKey, getKey, h, ih]

theorem getKey_setKey_ne (l : List (String × Json)) (k k' : String) (v : Json)
    (h : k' ≠ k) : getKey (setKey l k v) k' = getKey l k' := by
  have hk : ¬k = k' := fun hk => h hk.symm
  induction l with
  | nil => simp only [setKey, getKey, if_neg hk]
  | cons hd tl ih =>
      obtain ⟨k₀, v₀⟩ := hd
      by_cases h₀ : k₀ = k
      · subst h₀
        simp only [setKey, if_pos rfl, getKey, if_neg hk]
      · simp only [setKey, if_neg h₀, getKey]
        by_cases h₁ : k₀ = k'
        · simp [h₁]
        · simp [h₁, ih]

theorem objSpread_nil (base : List (String × Json)) : objSpread base [] = base := rfl

theorem objSpread_cons (base : List (String × Json)) (k : String) (v : Json)
    (tl : List (String × Json)) :
    objSpread base ((k, v) :: tl) = objSpread (setKey base k v) tl := rfl

/-- A spread key absent from the spread entries keeps the base literal's value. -/
theorem getKey_objSpread_of_none (base entries : List (String × Json)) (k : String)
    (h : getKey entries k = none) :
    getKey (objSpread base entries) k = getKey base k := by
  induction entries generalizing base with
  | nil => rfl
  | cons hd tl ih =>
      obtain ⟨k₁, v₁⟩ := hd
      rw [getKey_cons] at h
      by_cases hk : k₁ = k
      · simp [hk] at h
      · rw [if_neg hk] at h
        rw [objSpread_cons, ih _ h, getKey_setKey_ne _ _ _ _ (fun hk' => hk hk'.symm)]

/-- A spread key present in the (duplicate-free) spread entries overwrites the
base literal's value with the entry's value. -/
theorem getKey_objSpread_of_some (base entries : List (String × Json)) (k : String)
    (v : Json) (hnd : (entries.map Prod.fst).Nodup) (h : getKey entries k = some v) :
    getKey (objSpread base entries) k = some v := by
  induction entries generalizing base with
  | nil => simp [getKey] at h
  | cons hd tl ih =>
      obtain ⟨k₁, v₁⟩ := hd
      rw [getKey_cons] at h
      simp only [List.map_cons, List.nodup_cons] at hnd
      by_cases hk : k₁ = k
      · rw [if_pos hk] at h
        obtain rfl : v₁ = v := by injection h
        subst hk
        have htl : getKey tl k₁ = none := by
          rcases he : getKey tl k₁ with _ | w
          · rfl
          · exfalso
            apply hnd.1
            clear ih hnd h
            induction tl with
            | nil => simp [getKey] at he
            | cons hd₂ tl₂ ih₂ =>
                obtain ⟨k₂, v₂⟩ := hd₂
                rw [getKey_cons] at he
                by_cases hk₂ : k₂ = k₁
                · simp [hk₂]
                · rw [if_neg hk₂] at he
                  simpa using Or.inr (ih₂ he)
        rw [objSpread_cons, getKey_objSpread_of_none _ _ _ htl, getKey_setKey_self]
      · rw [if_neg hk] at h
        rw [objSpread_cons]
        exact ih _ hnd.2 h

/-- A prefix of entries none of which holds the key is skipped by lookup. -/
theorem getKey_append_of_none (l₁ l₂ : List (String × Json)) (k : String)
    (h : getKey l₁ k = none) : getKey (l₁ ++ l₂) k = getKey l₂ k := by
  induction l₁ with
  | nil => rfl
  | cons hd tl ih =>
      obtain ⟨k₁, v₁⟩ := hd
      rw [getKey_cons] at h
      by_cases hk : k₁ = k
      · simp [hk] at h
      · rw [if_neg hk] at h
        rw [List.cons_append, getKey_cons, if_neg hk, ih h]

theorem getKey_optEntry_append (k' k : String) (o : Option Json)
    (l : List (String × Json)) (h : k' ≠ k) :
    getKey (optEntry k' o ++ l) k = getKey l k := by
  cases o with
  | none => rfl
  | some v => rw [optEntry, List.singleton_append, getKey_cons, if_neg h]

theorem getKey_optEntry_some_append (k : String) (v : Json) (l : List (String × Json)) :
    getKey (optEntry k (some v) ++ l) k = some v := by
  rw [optEntry, List.singleton_append, getKey_cons, if_pos rfl]

theorem jsMember_mkCustomer_id (b : SignupBody) (t : Int) (iso : String) :
    jsMember (mkCustomer b t iso) "id" = .ok (some (.num t)) := by
  simp only [mkCustomer, jsMember, List.append_assoc, List.singleton_append,
    List.cons_append, List.nil_append]
  rw [getKey_cons, if_pos rfl]

theorem jsMember_mkCustomer_email (b : SignupBody) (t : Int) (iso : String) :
    jsMember (mkCustomer b t iso) "email" = .ok b.email := by
  simp only [mkCustomer, jsMember, List.append_assoc, List.singleton_append,
    List.cons_append, List.nil_append]
  rw [getKey_cons, if_neg (by decide : ¬("id" = "email")),
    getKey_optEntry_append _ _ _ _ (by decide : ("name" : String) ≠ "email")]
  cases he : b.email with
  | some e => rw [getKey_optEntry_some_append]
  | none =>
      rw [optEntry, List.nil_append,
        getKey_optEntry_append _ _ _ _ (by decide : ("phone" : String) ≠ "email"),
        getKey_optEntry_append _ _ _ _ (by decide : ("street" : String) ≠ "email"),
        getKey_optEntry_append _ _ _ _ (by decide : ("city" : String) ≠ "email"),
        getKey_optEntry_append _ _ _ _ (by decide : ("state" : String) ≠ "email"),
        getKey_optEntry_append _ _ _ _ (by decide : ("pincode" : String) ≠ "email"),
        getKey_optEntry_append _ _ _ _ (by decide : ("dob" : String) ≠ "email"),
        getKey_cons, if_neg (by decide : ¬("signupDate" = "email"))]
      rfl

theorem jsMember_mkCustomer_signupDate (b : SignupBody) (t : Int) (iso : String) :
    jsMember (mkCustomer b t iso) "signupDate" = .ok (some (.str iso)) := by
  simp only [mkCustomer, jsMember, List.append_assoc, List.singleton_append,
    List.cons_append, List.nil_append]
  rw [getKey_cons, if_neg (by decide : ¬("id" = "signupDate")),
    getKey_optEntry_append _ _ _ _ (by decide : ("name" : String) ≠ "signupDate"),
    getKey_optEntry_append _ _ _ _ (by decide : ("email" : String) ≠ "signupDate"),
    getKey_optEntry_append _ _ _ _ (by decide : ("phone" : String) ≠ "signupDate"),
    getKey_optEntry_append _ _ _ _ (by decide : ("street" : String) ≠ "signupDate"),
    getKey_optEntry_append _ _ _ _ (by decide : ("city" : String) ≠ "signupDate"),
    getKey_optEntry_append _ _ _ _ (by decide : ("state" : String) ≠ "signupDate"),
    getKey_optEntry_append _ _ _ _ (by decide : ("pincode" : String) ≠ "signupDate"),
    getKey_optEntry_append _ _ _ _ (by decide : ("dob" : String) ≠ "signupDate"),
    getKey_cons, if_pos rfl]

/-- On collections of objects, `findCustomer` never throws and agrees with
`List.find?` over the `email`-equality predicate. -/
theorem findCustomer_eq_find (customers : List Json) (email : Option Json)
    (hobj : ∀ c ∈ customers, c.isObj = true) :
    findCustomer customers email =
      .ok (customers.find? fun c => jsStrictEq (emailField c) email) := by
  induction customers with
  | nil => rfl
  | cons c rest ih =>
      have hc : c.isObj = true := hobj c (by simp)
      have hrest : ∀ x ∈ rest, x.isObj = true := fun x hx => hobj x (by simp [hx])
      cases c with
      | obj kvs =>
          simp only [findCustomer, jsMember, List.find?]
          rw [show emailField (Json.obj kvs) = getKey kvs "email" from rfl]
          by_cases h : jsStrictEq (getKey kvs "email") email = true
          · simp [h]
          · simp only [Bool.not_eq_true] at h
            simp [h, ih hrest]
      | null => simp [Json.isObj] at hc
      | bool b => simp [Json.isObj] at hc
      | num n => simp [Json.isObj] at hc
      | str s => simp [Json.isObj] at hc
      | arr l => simp [Json.isObj] at hc

/-- The signup route on a stored object collection with no email match:
201 response carrying the new customer, which is appended at the end. -/
theorem signup_of_no_match (b : SignupBody) (t : Int) (iso : String)
    (customers : List Json) (hobj : ∀ c ∈ customers, c.isObj = true)
    (hfind : customers.find? (fun c => jsStrictEq (emailField c) b.email) = none) :
    signupHandler b t iso (.stored (.arr customers)) =
      (⟨201, .json (.obj [("message", .str "Customer registered successfully!"),
          ("customer", mkCustomer b t iso)])⟩,
       writeData (.arr (customers ++ [mkCustomer b t iso]))) := by
  have hfc := findCustomer_eq_find customers b.email hobj
  simp [signupHandler, readData, hfc, hfind, truthyOpt]

/-- The signup route on a stored object collection with an email match:
400 response, storage untouched. -/
theorem signup_of_match (b : SignupBody) (t : Int) (iso : String)
    (customers : List Json) (c₀ : Json) (hobj : ∀ c ∈ customers, c.isObj = true)
    (hfind : customers.find? (fun c => jsStrictEq (emailField c) b.email) = some c₀) :
    signupHandler b t iso (.stored (.arr customers)) =
      (⟨400, .json (.obj [("message", .str "A customer with this email already exists.")])⟩,
       .stored (.arr customers)) := by
  have hfc := findCustomer_eq_find customers b.email hobj
  have hc₀ : c₀.isObj = true := hobj c₀ (List.mem_of_find?_eq_some hfind)
  have htr : truthy c₀ = true := by
    cases c₀ <;> simp_all [Json.isObj, truthy]
  simp [signupHandler, readData, hfc, hfind, truthyOpt, htr]

/-- C6: loading a collection whose storage is absent initializes the storage
with the empty sequence and returns the empty sequence; an immediately
subsequent load finds existing (non-absent) storage and again returns the
empty sequence, without taking the missing-storage branch. -/
theorem readData_absent_initializes :
    readData .absent = .ok (.arr [], .stored (.arr []))
      ∧ .stored (.arr []) ≠ FileState.absent
      ∧ readData (.stored (.arr [])) = .ok (.arr [], .stored (.arr [])) := by
  refine ⟨rfl, ?_, rfl⟩
  intro h
  exact FileState.noConfusion h

/-- C7: in any prior file state, saving a sequence `s` and then loading
returns exactly `s` (round-trip fidelity); consequently whatever `load`
returns is a fixed point of `save`-then-`load`. -/
theorem save_load_roundtrip :
    (∀ (s : List Json),
      readData (writeData (.arr s)) = .ok (.arr s, writeData (.arr s)))
      ∧ (∀ (st st' : FileState) (v : Json), readData st = .ok (v, st') →
          readData (writeData v) = .ok (v, writeData v)) :=
  ⟨fun _ => rfl, fun _ _ _ _ => rfl⟩

/-- Witness for C7 at a concrete state: loading the stored singleton
collection and saving the result back leaves the loaded value fixed. -/
theorem save_load_roundtrip_witness :
    readData (writeData (.arr [.num 7])) = .ok (.arr [.num 7], writeData (.arr [.num 7])) :=
  save_load_roundtrip.2 (.stored (.arr [.num 7])) (.stored (.arr [.num 7])) (.arr [.num 7]) rfl

/-- C1 (counterexample): submitting an order with a caller-supplied `id` at
server clock `1` stores and returns a record whose `id` is the caller's `999`,
not the server-generated `1` — the spread of the request body overrides the
generated keys, falsifying "generated keys take precedence in the merge". -/
theorem orders_caller_id_wins_counterexample :
    ordersHandler [("id", Json.num 999)] 1 "T" (.stored (.arr [])) =
      (⟨201, .json (.obj [("message", .str "Order received!"),
          ("order", .obj [("id", .num 999), ("date", .str "T")])])⟩,
       .stored (.arr [.obj [("id", .num 999), ("date", .str "T")]]))
    ∧ getKey [("id", Json.num 999), ("date", Json.str "T")] "id" ≠ some (Json.num 1) := by
  refine ⟨rfl, ?_⟩
  intro h
  rw [getKey_cons, if_pos rfl] at h
  have : (999 : Int) = 1 := by
    injection h with h'
    injection h'
  omega

/-- C1 (amended): for order and reservation submissions, the appended and
returned record is the object `{id, date}` spread with the caller's fields,
where caller-supplied keys — `id` and `date` included — take precedence over
the generated values; the generated `id`/`date` are used only when the caller
omits those keys. -/
theorem submit_caller_fields_take_precedence (body : List (String × Json))
    (now : Int) (iso : String) (l : List Json) (st st' : FileState)
    (h : readData st = .ok (.arr l, st')) :
    (ordersHandler body now iso st =
      (⟨201, .json (.obj [("message", .str "Order received!"),
          ("order", submitRecord body now iso)])⟩,
       .stored (.arr (l ++ [submitRecord body now iso]))))
    ∧ (reservationsHandler body now iso st =
      (⟨201, .json (.obj [("message", .str "Reservation received!"),
          ("reservation", submitRecord body now iso)])⟩,
       .stored (.arr (l ++ [submitRecord body now iso]))))
    ∧ ((body.map Prod.fst).Nodup → ∀ k v, getKey body k = some v →
        jsMember (submitRecord body now iso) k = .ok (some v))
    ∧ (getKey body "id" = none →
        jsMember (submitRecord body now iso) "id" = .ok (some (.num now)))
    ∧ (getKey body "date" = none →
        jsMember (submitRecord body now iso) "date" = .ok (some (.str iso))) := by
  refine ⟨?_, ?_, ?_, ?_, ?_⟩
  · simp [ordersHandler, submitHandler, h, writeData]
  · simp [reservationsHandler, submitHandler, h, writeData]
  · intro hnd k v hk
    simp only [submitRecord, jsMember]
    rw [getKey_objSpread_of_some _ _ _ _ hnd hk]
  · intro hid
    simp only [submitRecord, jsMember]
    rw [getKey_objSpread_of_none _ _ _ hid, getKey_cons, if_pos rfl]
  · intro hdate
    simp only [submitRecord, jsMember]
    rw [getKey_objSpread_of_none _ _ _ hdate, getKey_cons,
      if_neg (by decide : ¬("id" = "date")), getKey_cons, if_pos rfl]

/-- Witness for the amended C1 at a concrete input: a body carrying `id: 5`
keeps `id = 5` in the stored record while the omitted `date` is generated. -/
theorem submit_caller_fields_take_precedence_witness :
    ordersHandler [("id", Json.num 5)] 1 "T" (.stored (.arr [])) =
      (⟨201, .json (.obj [("message", .str "Order received!"),
          ("order", submitRecord [("id", Json.num 5)] 1 "T")])⟩,
       .stored (.arr ([] ++ [submitRecord [("id", Json.num 5)] 1 "T"])))
    ∧ jsMember (submitRecord [("id", Json.num 5)] 1 "T") "id" = .ok (some (.num 5))
    ∧ jsMember (submitRecord [("id", Json.num 5)] 1 "T") "date" = .ok (some (.str "T")) :=
  ⟨(submit_caller_fields_take_precedence [("id", Json.num 5)] 1 "T" []
      (.stored (.arr [])) (.stored (.arr [])) rfl).1,
   (submit_caller_fields_take_precedence [("id", Json.num 5)] 1 "T" []
      (.stored (.arr [])) (.stored (.arr [])) rfl).2.2.1 (by simp) "id" (Json.num 5) rfl,
   (submit_caller_fields_take_precedence [("id", Json.num 5)] 1 "T" []
      (.stored (.arr [])) (.stored (.arr [])) rfl).2.2.2.2 rfl⟩

/-- C2 (counterexample): two sequential signups with emails `a@x.com` then
`b@x.com` on the empty store, when both requests read the same clock tick
(`Date.now() = 0`), store two records whose generated ids are equal — the
claimed id distinctness does not hold for every pair of clock readings. -/
theorem signup_same_tick_id_collision :
    (signupHandler ⟨none, some (.str "b@x.com"), none, none, none, none, none, none, none⟩ 0 "Z"
        ((signupHandler ⟨none, some (.str "a@x.com"), none, none, none, none, none, none, none⟩
            0 "Z" (.stored (.arr []))).2)).2 =
      .stored (.arr [.obj [("id", .num 0), ("email", .str "a@x.com"), ("signupDate", .str "Z")],
                     .obj [("id", .num 0), ("email", .str "b@x.com"), ("signupDate", .str "Z")]])
    ∧ jsMember (.obj [("id", .num 0), ("email", .str "a@x.com"), ("signupDate", .str "Z")]) "id"
        = jsMember (.obj [("id", .num 0), ("email", .str "b@x.com"), ("signupDate", .str "Z")]) "id" :=
  ⟨rfl, rfl⟩

/-- C2 (amended): two sequential successful signups with emails `a@x.com` then
`b@x.com` on an initially empty store yield exactly two records in signup
order (the first carries `a@x.com`), for every pair of clock readings; the two
generated ids are distinct whenever the two `Date.now()` readings differ (they
collide when the requests share a clock tick). -/
theorem signup_two_sequential_appends (b1 b2 : SignupBody) (t1 t2 : Int)
    (iso1 iso2 : String) (h1 : b1.email = some (.str "a@x.com"))
    (h2 : b2.email = some (.str "b@x.com")) :
    (signupHandler b2 t2 iso2 (signupHandler b1 t1 iso1 (.stored (.arr []))).2).2 =
      .stored (.arr [mkCustomer b1 t1 iso1, mkCustomer b2 t2 iso2])
    ∧ jsMember (mkCustomer b1 t1 iso1) "email" = .ok (some (.str "a@x.com"))
    ∧ jsMember (mkCustomer b2 t2 iso2) "email" = .ok (some (.str "b@x.com"))
    ∧ (t1 ≠ t2 →
        jsMember (mkCustomer b1 t1 iso1) "id" ≠ jsMember (mkCustomer b2 t2 iso2) "id") := by
  have s1 := signup_of_no_match b1 t1 iso1 [] (by simp) (by simp)
  have hobj1 : ∀ c ∈ [mkCustomer b1 t1 iso1], c.isObj = true := by
    simp [mkCustomer, Json.isObj]
  have hef : emailField (mkCustomer b1 t1 iso1) = b1.email := by
    simp [emailField, jsMember_mkCustomer_email]
  have hne : jsStrictEq (emailField (mkCustomer b1 t1 iso1)) b2.email = false := by
    rw [hef, h1, h2]
    rfl
  have hfind2 : [mkCustomer b1 t1 iso1].find?
      (fun c => jsStrictEq (emailField c) b2.email) = none := by
    simp [List.find?, hne]
  have s2 := signup_of_no_match b2 t2 iso2 [mkCustomer b1 t1 iso1] hobj1 hfind2
  refine ⟨?_, ?_, ?_, ?_⟩
  · rw [s1]
    simp only [writeData, List.nil_append]
    rw [s2]
    simp [writeData]
  · rw [jsMember_mkCustomer_email, h1]
  · rw [jsMember_mkCustomer_email, h2]
  · intro ht heq
    rw [jsMember_mkCustomer_id, jsMember_mkCustomer_id] at heq
    apply ht
    injection heq with heq'
    injection heq' with heq''
    injection heq''

/-- Witness for the amended C2: distinct ticks 0 and 1 store the two records
in order with distinct ids. -/
theorem signup_two_sequential_appends_witness :
    (signupHandler ⟨none, some (.str "b@x.com"), none, none, none, none, none, none, none⟩ 1 "W"
        ((signupHandler ⟨none, some (.str "a@x.com"), none, none, none, none, none, none, none⟩
            0 "Z" (.stored (.arr []))).2)).2 =
      .stored (.arr
        [mkCustomer ⟨none, some (.str "a@x.com"), none, none, none, none, none, none, none⟩ 0 "Z",
         mkCustomer ⟨none, some (.str "b@x.com"), none, none, none, none, none, none, none⟩ 1 "W"])
    ∧ jsMember (mkCustomer ⟨none, some (.str "a@x.com"), none, none, none, none, none, none, none⟩
          0 "Z") "id"
        ≠ jsMember (mkCustomer ⟨none, some (.str "b@x.com"), none, none, none, none, none, none,
          none⟩ 1 "W") "id" :=
  ⟨(signup_two_sequential_appends _ _ 0 1 "Z" "W" rfl rfl).1,
   (signup_two_sequential_appends _ _ 0 1 "Z" "W" rfl rfl).2.2.2 (by omega)⟩

/-- C3: a signup whose email strictly equals the email of some record in the
stored customer collection (of object records) answers 400 with the duplicate
message and leaves the stored collection exactly unchanged. -/
theorem signup_duplicate_email_rejected (b : SignupBody) (t : Int) (iso : String)
    (customers : List Json) (hobj : ∀ c ∈ customers, c.isObj = true)
    (hdup : ∃ c ∈ customers, jsStrictEq (emailField c) b.email = true) :
    signupHandler b t iso (.stored (.arr customers)) =
      (⟨400, .json (.obj [("message", .str "A customer with this email already exists.")])⟩,
       .stored (.arr customers)) := by
  obtain ⟨c₀, hfind⟩ : ∃ c₀,
      customers.find? (fun c => jsStrictEq (emailField c) b.email) = some c₀ := by
    rw [← Option.isSome_iff_exists, List.find?_isSome]
    exact hdup
  exact signup_of_match b t iso customers c₀ hobj hfind

/-- Witness for C3: re-signing up with the already-stored email `a@x.com`
is rejected and the one-record collection is untouched. -/
theorem signup_duplicate_email_rejected_witness :
    signupHandler ⟨none, some (.str "a@x.com"), none, none, none, none, none, none, none⟩ 0 "Z"
        (.stored (.arr [.obj [("email", .str "a@x.com")]])) =
      (⟨400, .json (.obj [("message", .str "A customer with this email already exists.")])⟩,
       .stored (.arr [.obj [("email", .str "a@x.com")]])) :=
  signup_duplicate_email_rejected _ 0 "Z" _ (by simp [Json.isObj])
    ⟨.obj [("email", .str "a@x.com")], by simp, rfl⟩

/-- C4: update-menu with a supplied secret that is not strictly equal to the
fixed secret answers 401 Unauthorized and leaves the menu storage exactly
unchanged, whatever the supplied menu value and prior state. -/
theorem update_menu_wrong_secret_unchanged (pw menu : Option Json) (st : FileState)
    (h : jsStrictEq pw (some (.str "themomchef@123")) = false) :
    updateMenuHandler pw menu st =
      (⟨401, .json (.obj [("message", .str "Unauthorized")])⟩, st) := by
  simp [updateMenuHandler, h]

/-- Witness for C4: the wrong secret `"guess"` is rejected on a stored menu. -/
theorem update_menu_wrong_secret_unchanged_witness :
    updateMenuHandler (some (.str "guess")) (some (.arr [])) (.stored (.arr [.num 3])) =
      (⟨401, .json (.obj [("message", .str "Unauthorized")])⟩, .stored (.arr [.num 3])) :=
  update_menu_wrong_secret_unchanged (some (.str "guess")) (some (.arr []))
    (.stored (.arr [.num 3])) rfl

/-- C5: a signup whose email matches no record of the stored (object) customer
collection appends exactly one record — the prior records unchanged and in
place, length one greater — and that record's `id` and `signupDate` are the
server's clock readings for every request body, never caller-supplied values
(the destructured signup fields contain no `id` or `signupDate`). -/
theorem signup_new_email_appends (b : SignupBody) (t : Int) (iso : String)
    (customers : List Json) (hobj : ∀ c ∈ customers, c.isObj = true)
    (hnew : ∀ c ∈ customers, jsStrictEq (emailField c) b.email = false) :
    signupHandler b t iso (.stored (.arr customers)) =
      (⟨201, .json (.obj [("message", .str "Customer registered successfully!"),
          ("customer", mkCustomer b t iso)])⟩,
       .stored (.arr (customers ++ [mkCustomer b t iso])))
    ∧ (customers ++ [mkCustomer b t iso]).length = customers.length + 1
    ∧ jsMember (mkCustomer b t iso) "id" = .ok (some (.num t))
    ∧ jsMember (mkCustomer b t iso) "signupDate" = .ok (some (.str iso)) := by
  have hfind : customers.find? (fun c => jsStrictEq (emailField c) b.email) = none := by
    rw [List.find?_eq_none]
    intro x hx
    simp [hnew x hx]
  exact ⟨signup_of_no_match b t iso customers hobj hfind, by simp,
    jsMember_mkCustomer_id b t iso, jsMember_mkCustomer_signupDate b t iso⟩

/-- Witness for C5: a signup against a one-record collection with a different
email appends exactly the new record. -/
theorem signup_new_email_appends_witness :
    signupHandler ⟨none, some (.str "b@x.com"), none, none, none, none, none, none, none⟩ 4 "Z"
        (.stored (.arr [.obj [("email", .str "a@x.com")]])) =
      (⟨201, .json (.obj [("message", .str "Customer registered successfully!"),
          ("customer", mkCustomer
            ⟨none, some (.str "b@x.com"), none, none, none, none, none, none, none⟩ 4 "Z")])⟩,
       .stored (.arr ([.obj [("email", .str "a@x.com")]] ++ [mkCustomer
          ⟨none, some (.str "b@x.com"), none, none, none, none, none, none, none⟩ 4 "Z"]))) :=
  (signup_new_email_appends _ 4 "Z" [.obj [("email", .str "a@x.com")]]
    (by simp [Json.isObj]) (by intro c hc; simp at hc; subst hc; rfl)).1

/-- C8: exporting any of the three collections while the stored collection is
the empty sequence answers 200 with the literal collection-appropriate
sentence, never CSV text, and the response does not depend on the CSV
formatter at all (it is never invoked). -/
theorem export_empty_collection_sentence (st st' : FileState) (fmt fmt' : Json → String)
    (h : readData st = .ok (.arr [], st')) :
    (exportOrdersHandler fmt st = (⟨200, .text "No orders to export."⟩, st')
      ∧ exportOrdersHandler fmt st = exportOrdersHandler fmt' st)
    ∧ (exportReservationsHandler fmt st = (⟨200, .text "No reservations to export."⟩, st')
      ∧ exportReservationsHandler fmt st = exportReservationsHandler fmt' st)
    ∧ (exportCustomersHandler fmt st = (⟨200, .text "No customers to export."⟩, st')
      ∧ exportCustomersHandler fmt st = exportCustomersHandler fmt' st) := by
  have base : ∀ (sentence errMsg : String) (f : Json → String),
      exportHandler sentence errMsg f st = (⟨200, .text sentence⟩, st') := by
    intro sentence errMsg f
    simp [exportHandler, h, jsMember, jsStrictEq, jsonStrictEq]
  exact ⟨⟨base _ _ fmt, (base _ _ fmt).trans (base _ _ fmt').symm⟩,
    ⟨base _ _ fmt, (base _ _ fmt).trans (base _ _ fmt').symm⟩,
    ⟨base _ _ fmt, (base _ _ fmt).trans (base _ _ fmt').symm⟩⟩

/-- Witness for C8 on the empty stored collection, with two different
formatters. -/
theorem export_empty_collection_sentence_witness :
    exportOrdersHandler (fun _ => "") (.stored (.arr [])) =
        (⟨200, .text "No orders to export."⟩, .stored (.arr []))
      ∧ exportOrdersHandler (fun _ => "") (.stored (.arr []))
        = exportOrdersHandler (fun _ => "csv") (.stored (.arr [])) :=
  (export_empty_collection_sentence (.stored (.arr [])) (.stored (.arr []))
    (fun _ => "") (fun _ => "csv") rfl).1

/-- C9: two signup requests identical except for the caller-supplied
`password` field produce identical responses and identical stored state —
the password is neither persisted nor echoed back. -/
theorem signup_password_not_persisted (b : SignupBody) (p1 p2 : Option Json)
    (t : Int) (iso : String) (st : FileState) :
    signupHandler { b with password := p1 } t iso st =
      signupHandler { b with password := p2 } t iso st := by
  obtain ⟨n, e, ph, s, c, st', pc, d, pw⟩ := b
  rfl

/-- C10: update-menu with the correct secret stores any JSON-representable
`menu` value verbatim — arrays, objects, strings and numbers alike, with no
shape check — and a subsequent `GET /api/menu` returns exactly that value. -/
theorem update_menu_stores_verbatim (v : Json) (st : FileState) :
    updateMenuHandler (some (.str "themomchef@123")) (some v) st =
      (⟨200, .json (.obj [("message", .str "Menu updated successfully!")])⟩, .stored v)
    ∧ menuGetHandler (.stored v) = (⟨200, .json v⟩, .stored v) :=
  ⟨rfl, rfl⟩

end MomChef
